import Mathlib

/-!
Verification of the netex stream server (`streamserver.go`, `netex.go`).

The Go code is shallowly embedded: the server struct becomes a Lean
structure, the atomic `int32` state field becomes an `Int`, and each
public method becomes a pure function from the pre-state (plus the
outcomes of external calls such as `net.Listen` or `l.Accept`, which are
passed in as parameters) to the post-state and the returned error.
The accept loop, which in Go blocks until `Accept` fails, is modelled by
giving each listener the finite trace of connections it yields before
its terminating accept error; the state value the loop observes at that
failure (written concurrently by `Close`) is an explicit parameter.
-/

namespace Netex

/-- Go `type ServerState int32`: the enum is a plain integer type, so the
state variable can in principle hold any value; the named constants below
are the only ones the code ever stores. -/
abbrev ServerState := Int

/-- Go `StateInvalid ServerState = iota` (value 0). -/
def StateInvalid : ServerState := 0

/-- Go `StateIdle` (value 1). -/
def StateIdle : ServerState := 1

/-- Go `StateRunning` (value 2). -/
def StateRunning : ServerState := 2

/-- Go `StateShuttingDown` (value 3). -/
def StateShuttingDown : ServerState := 3

/-- Go `func (ss ServerState) String() string`: the switch over the four
named constants, with the empty string as the fall-through result. -/
def ServerStateString (ss : ServerState) : String :=
  if ss = StateInvalid then "Invalid"
  else if ss = StateIdle then "Idle"
  else if ss = StateRunning then "Running"
  else if ss = StateShuttingDown then "Shutting down"
  else ""

/-- A connection handle (`net.Conn` is opaque to the server: it is only
passed through to the handler). -/
abbrev Conn := Nat

/-- Errors returned by the server's methods. `errAlreadyRunning` and
`errNotRunning` model the package-level `ErrAlreadyRunning` and
`ErrNotRunning`; `transport msg` models an error coming from the `net`
or `crypto/tls` layer (bind, accept or close failures); `nilListenerPanic`
marks the place where Go would dereference a nil `net.Listener` and panic
(`Close` with no listener installed). -/
inductive GoError where
  | errAlreadyRunning : GoError
  | errNotRunning : GoError
  | transport (msg : String) : GoError
  | nilListenerPanic : GoError
deriving DecidableEq, Repr

/-- A listener, described by its observable behaviour towards the server:
the finite sequence of connections `Accept` yields, the (non-nil) error
that finally terminates the accept loop, and the result of `Close`
(`none` = nil error). -/
structure Listener where
  accepts : List Conn
  acceptErr : String
  closeErr : Option String
deriving DecidableEq, Repr

/-- Go `type StreamServer struct`: `Handler` is the type implementing the
`ConnHandler` interface; the `listener net.Listener` field is an interface
value whose zero value is nil, hence `Option Listener`; `state int32` is
accessed atomically in Go and is an `Int` here. -/
structure StreamServer (Handler : Type) where
  network : String
  addr : String
  listener : Option Listener
  handler : Handler
  state : Int
deriving DecidableEq, Repr

/-- Go `NewStreamServer(network, addr string, handler ConnHandler)`:
builds the struct (listener left at its nil zero value) and stores
`StateIdle` into the state field. -/
def NewStreamServer {H : Type} (network addr : String) (handler : H) :
    StreamServer H :=
  { network := network
    addr := addr
    listener := none
    handler := handler
    state := StateIdle }

/-- Go `func (s *StreamServer) isReady() bool`: a single atomic load of
the state compared against `StateIdle`. -/
def StreamServer.isReady {H : Type} (s : StreamServer H) : Bool :=
  s.state = StateIdle

/-- The `for` loop inside `serve`: each successful `Accept` dispatches the
connection to the handler in a new goroutine (collected here in acceptance
order) and continues; the terminating accept failure checks the state the
loop observes at that moment (`stateAtFailure`, written concurrently by
`Close`) and is suppressed when it equals `StateShuttingDown`. -/
def acceptLoop (conns : List Conn) (acceptErr : String)
    (stateAtFailure : Int) : Option GoError × List Conn :=
  match conns with
  | [] =>
      (if stateAtFailure = StateShuttingDown then none
       else some (GoError.transport acceptErr), [])
  | c :: rest =>
      let r := acceptLoop rest acceptErr stateAtFailure
      (r.1, c :: r.2)

/-- Go `func (s *StreamServer) serve(l net.Listener) (err error)`:
installs `l` into the listener field, runs the accept loop, then stores
`StateIdle` before returning. Returns the post-state, the returned error
and the list of dispatched connections. -/
def StreamServer.serve {H : Type} (s : StreamServer H) (l : Listener)
    (stateAtFailure : Int) : StreamServer H × Option GoError × List Conn :=
  let s1 := { s with listener := some l }
  let r := acceptLoop l.accepts l.acceptErr stateAtFailure
  ({ s1 with state := StateIdle }, r.1, r.2)

/-- Go `func (s *StreamServer) Serve(l net.Listener) (err error)`:
rejects with `ErrAlreadyRunning` unless `isReady`, else stores
`StateRunning` and runs `serve`. -/
def StreamServer.Serve {H : Type} (s : StreamServer H) (l : Listener)
    (stateAtFailure : Int) : StreamServer H × Option GoError × List Conn :=
  if ¬ s.isReady then (s, some GoError.errAlreadyRunning, [])
  else
    let s1 := { s with state := StateRunning }
    s1.serve l stateAtFailure

/-- Go `func (s *StreamServer) ListenAndServe() error`: after the
readiness check stores `StateRunning`, then calls `net.Listen` (an
external call whose outcome is the parameter `listen`); on a bind error
it defers a store of `StateIdle` and returns the error, otherwise it runs
`serve` on the new listener. -/
def StreamServer.ListenAndServe {H : Type} (s : StreamServer H)
    (listen : Except String Listener) (stateAtFailure : Int) :
    StreamServer H × Option GoError × List Conn :=
  if ¬ s.isReady then (s, some GoError.errAlreadyRunning, [])
  else
    let s1 := { s with state := StateRunning }
    match listen with
    | Except.error e =>
        ({ s1 with state := StateIdle }, some (GoError.transport e), [])
    | Except.ok l => s1.serve l stateAtFailure

/-- A TLS certificate, opaque to this code. -/
structure TlsCertificate where
  id : Nat
deriving DecidableEq, Repr

/-- Go `tls.Config`: only the `Certificates` slice is observable here. -/
structure TlsConfig where
  Certificates : List TlsCertificate
deriving DecidableEq, Repr

/-- Go `func (s *StreamServer) ListenAndServeTLS(tlsconfig *tls.Config)
error`: after the readiness check a nil config is replaced by an empty
one, `StateRunning` is stored, then `tls.Listen` is called (outcome in
the parameter `listen`). On a bind error the error is returned with NO
deferred reset of the state (unlike `ListenAndServe`); otherwise `serve`
runs on the new listener. -/
def StreamServer.ListenAndServeTLS {H : Type} (s : StreamServer H)
    (tlsconfig : Option TlsConfig) (listen : Except String Listener)
    (stateAtFailure : Int) : StreamServer H × Option GoError × List Conn :=
  if ¬ s.isReady then (s, some GoError.errAlreadyRunning, [])
  else
    let _cfg := tlsconfig.getD { Certificates := [] }
    let s1 := { s with state := StateRunning }
    match listen with
    | Except.error e => (s1, some (GoError.transport e), [])
    | Except.ok l => s1.serve l stateAtFailure

/-- Go `func (s *StreamServer) Close() error`: rejects with
`ErrNotRunning` unless the state is `StateRunning`; otherwise stores
`StateShuttingDown`, defers a store of `StateIdle`, and closes the
listener (a nil listener would make Go panic, marked by
`nilListenerPanic`; the deferred store runs even then). The third
component is the ordered trace of state values `Close` itself writes. -/
def StreamServer.Close {H : Type} (s : StreamServer H) :
    StreamServer H × Option GoError × List Int :=
  if s.state ≠ StateRunning then (s, some GoError.errNotRunning, [])
  else
    let s1 := { s with state := StateShuttingDown }
    let res :=
      match s1.listener with
      | some l => l.closeErr.map GoError.transport
      | none => some GoError.nilListenerPanic
    ({ s1 with state := StateIdle }, res, [StateShuttingDown, StateIdle])

/-- Go `func (s *StreamServer) State() ServerState`: an atomic load of
the state field, cast to `ServerState`. -/
def StreamServer.State {H : Type} (s : StreamServer H) : ServerState :=
  s.state

/-- Go `func TlsConfigWithCertificate(cert, key string) (*tls.Config,
error)` from `netex.go`: `tls.LoadX509KeyPair` is external, so its
behaviour is the parameter `loadX509KeyPair`; on failure the pair
`(nil, err)` is returned, on success a config whose certificate slice
holds exactly the loaded pair, with a nil error. -/
def TlsConfigWithCertificate
    (loadX509KeyPair : String → String → Except String TlsCertificate)
    (cert key : String) : Option TlsConfig × Option String :=
  match loadX509KeyPair cert key with
  | Except.error e => (none, some e)
  | Except.ok c => (some { Certificates := [c] }, none)

/-- Go `func TLSConfigFromCertificateFile(cert, key string) (*tls.Config,
error)` (the unnamed source part): identical body to
`TlsConfigWithCertificate`. -/
def TLSConfigFromCertificateFile
    (loadX509KeyPair : String → String → Except String TlsCertificate)
    (cert key : String) : Option TlsConfig × Option String :=
  match loadX509KeyPair cert key with
  | Except.error e => (none, some e)
  | Except.ok c => (some { Certificates := [c] }, none)

/-!
Micro-step model of the start fast path. In Go the readiness check
(`atomic.LoadInt32`) and the transition to running (`atomic.StoreInt32`)
are two separate atomic actions, not a compare-and-swap, so two threads
running `Serve`/`ListenAndServe`/`ListenAndServeTLS` concurrently on the
same server interleave these actions on the shared state variable.
Program counters: 0 = about to perform the `isReady` load; 1 = the load
observed `StateIdle`, about to store `StateRunning`; 2 = stored
`StateRunning` and entered the accept loop; 3 = returned
`ErrAlreadyRunning` without starting. -/

/-- One atomic action of a thread executing the start fast path, given
the current value of the shared state variable and the thread's program
counter; returns the new shared state and program counter. -/
def startStep (g : Int) (pc : Nat) : Int × Nat :=
  match pc with
  | 0 => if g = StateIdle then (g, 1) else (g, 3)
  | 1 => (StateRunning, 2)
  | p => (g, p)

/-- A configuration of two threads, A and B, each executing a start
operation against the same server's shared state variable. -/
structure TwoStarters where
  state : Int
  pcA : Nat
  pcB : Nat
deriving DecidableEq, Repr

/-- Execute one atomic action of thread A (`true`) or B (`false`). -/
def stepStarter (c : TwoStarters) (who : Bool) : TwoStarters :=
  if who then
    let r := startStep c.state c.pcA
    { c with state := r.1, pcA := r.2 }
  else
    let r := startStep c.state c.pcB
    { c with state := r.1, pcB := r.2 }

/-- Execute a whole interleaving schedule, one thread id per step. -/
def runStarters (c : TwoStarters) : List Bool → TwoStarters
  | [] => c
  | w :: ws => runStarters (stepStarter c w) ws

/-- Servers reachable by any sequence of the public operations starting
from a constructor call, with the external outcomes (listener behaviour,
bind results, concurrently observed states) arbitrary at every step. -/
inductive Reachable {H : Type} : StreamServer H → Prop where
  | new (network addr : String) (handler : H) :
      Reachable (NewStreamServer network addr handler)
  | serveOp (s : StreamServer H) (l : Listener) (st : Int) :
      Reachable s → Reachable (s.Serve l st).1
  | listenOp (s : StreamServer H) (r : Except String Listener) (st : Int) :
      Reachable s → Reachable (s.ListenAndServe r st).1
  | listenTLSOp (s : StreamServer H) (cfg : Option TlsConfig)
      (r : Except String Listener) (st : Int) :
      Reachable s → Reachable (s.ListenAndServeTLS cfg r st).1
  | closeOp (s : StreamServer H) :
      Reachable s → Reachable (s.Close).1

/-- The accept loop dispatches every accepted connection and returns
`nil` exactly when the state observed at the terminating accept failure
is `StateShuttingDown`, and that failure otherwise. -/
theorem acceptLoop_eq (conns : List Conn) (acceptErr : String)
    (stateAtFailure : Int) :
    acceptLoop conns acceptErr stateAtFailure =
      (if stateAtFailure = StateShuttingDown then none
       else some (GoError.transport acceptErr), conns) := by
  induction conns with
  | nil => rfl
  | cons c rest ih => simp [acceptLoop, ih]

/-- Closed form of `serve`: the listener is installed, the state ends at
`StateIdle`, the error is the accept failure unless the observed state
was `StateShuttingDown`, and the accepted connections are dispatched in
order. -/
theorem serve_eq {H : Type} (s : StreamServer H) (l : Listener) (st : Int) :
    s.serve l st =
      ({ s with listener := some l, state := StateIdle },
       if st = StateShuttingDown then none
       else some (GoError.transport l.acceptErr), l.accepts) := by
  simp [StreamServer.serve, acceptLoop_eq]

/-- State invariant at operation boundaries: every reachable server has
its state field equal to `StateIdle` or `StateRunning`. -/
theorem reachable_state {H : Type} (s : StreamServer H) (h : Reachable s) :
    s.state = StateIdle ∨ s.state = StateRunning := by
  induction h with
  | new network addr handler => exact Or.inl rfl
  | serveOp s l st _ ih =>
      by_cases hr : s.isReady
      · simp [StreamServer.Serve, hr, serve_eq]
      · simpa [StreamServer.Serve, hr] using ih
  | listenOp s r st _ ih =>
      by_cases hr : s.isReady
      · cases r with
        | error e => simp [StreamServer.ListenAndServe, hr]
        | ok l => simp [StreamServer.ListenAndServe, hr, serve_eq]
      · simpa [StreamServer.ListenAndServe, hr] using ih
  | listenTLSOp s cfg r st _ ih =>
      by_cases hr : s.isReady
      · cases r with
        | error e => simp [StreamServer.ListenAndServeTLS, hr, StateRunning]
        | ok l => simp [StreamServer.ListenAndServeTLS, hr, serve_eq]
      · simpa [StreamServer.ListenAndServeTLS, hr] using ih
  | closeOp s _ ih =>
      by_cases hr : s.state = StateRunning
      · simp [StreamServer.Close, hr]
      · simpa [StreamServer.Close, hr] using ih

/-- C1: evaluation at the failing input. `ListenAndServeTLS` called on an
idle server whose bind fails returns the underlying transport error but
leaves the state at `StateRunning` — the deferred reset to `StateIdle`
present in `ListenAndServe` (whose behaviour, proved in the third
conjunct, matches the claim) is missing from the TLS variant, so the
claim "the server's state reverts to Idle" fails for it. -/
theorem listenAndServeTLS_bind_failure_stays_running :
    ((NewStreamServer "tcp" ":9001" ()).ListenAndServeTLS none
        (Except.error "listen tcp :9001: bind: address already in use")
        StateRunning).1.state = StateRunning ∧
    ((NewStreamServer "tcp" ":9001" ()).ListenAndServeTLS none
        (Except.error "listen tcp :9001: bind: address already in use")
        StateRunning).2.1 =
      some (GoError.transport "listen tcp :9001: bind: address already in use") ∧
    ((NewStreamServer "tcp" ":9001" ()).ListenAndServe
        (Except.error "listen tcp :9001: bind: address already in use")
        StateRunning).1.state = StateIdle ∧
    ((NewStreamServer "tcp" ":9001" ()).ListenAndServe
        (Except.error "listen tcp :9001: bind: address already in use")
        StateRunning).2.1 =
      some (GoError.transport "listen tcp :9001: bind: address already in use") := by
  refine ⟨?_, ?_, ?_, ?_⟩ <;> rfl

/-- C2: counterexample. After a completed `Serve` run (the accept loop
exits with an error while the observed state is `StateRunning`), the
state is back to `StateIdle` but the listener field still holds the
served listener — `serve` never clears it — so "listener is non-null if
and only if state is Running or ShuttingDown" is false at this reachable
point. -/
theorem listener_iff_state_counterexample :
    ((NewStreamServer "tcp" ":9001" ()).Serve
        (Listener.mk [] "accept: use of closed network connection" none)
        StateRunning).1.state = StateIdle ∧
    ((NewStreamServer "tcp" ":9001" ()).Serve
        (Listener.mk [] "accept: use of closed network connection" none)
        StateRunning).1.listener =
      some (Listener.mk [] "accept: use of closed network connection" none) := by
  exact ⟨rfl, rfl⟩

/-- C2 (amended): the listener field is null at construction and the
accept loop installs the listener it serves, but on exit the loop resets
only the state, retaining the listener: after any `serve` run the state
is `StateIdle` while the listener field is still non-null. -/
theorem listener_field_behaviour {H : Type} (n a : String) (h : H)
    (s : StreamServer H) (l : Listener) (st : Int) :
    (NewStreamServer n a h).listener = none ∧
    ((s.serve l st).1).listener = some l ∧
    ((s.serve l st).1).state = StateIdle := by
  exact ⟨rfl, rfl, rfl⟩

/-- C3: the accept loop returns `nil` exactly when the state observed at
the terminating accept failure is `StateShuttingDown`, returns that
accept failure otherwise, and on either exit path its post-state is
`StateIdle`. -/
theorem serve_exit_spec {H : Type} (s : StreamServer H) (l : Listener)
    (st : Int) :
    ((s.serve l st).1).state = StateIdle ∧
    (s.serve l st).2.1 =
      (if st = StateShuttingDown then none
       else some (GoError.transport l.acceptErr)) := by
  simp [serve_eq]

/-- C4: every start operation called while the state is not `StateIdle`
returns `ErrAlreadyRunning` and leaves the server completely unchanged
(the full result is the unchanged server, the error, and no dispatched
connections). -/
theorem start_rejected_when_not_idle {H : Type} (s : StreamServer H)
    (l : Listener) (r : Except String Listener) (cfg : Option TlsConfig)
    (st : Int) (h : s.state ≠ StateIdle) :
    s.Serve l st = (s, some GoError.errAlreadyRunning, []) ∧
    s.ListenAndServe r st = (s, some GoError.errAlreadyRunning, []) ∧
    s.ListenAndServeTLS cfg r st = (s, some GoError.errAlreadyRunning, []) := by
  have hr : ¬ s.isReady := by simp [StreamServer.isReady, h]
  simp [StreamServer.Serve, StreamServer.ListenAndServe,
    StreamServer.ListenAndServeTLS, hr]

/-- C4 witness: a running server rejects all three start operations. -/
theorem start_rejected_when_not_idle_witness :
    (StreamServer.mk "tcp" ":9001" none () StateRunning).state ≠ StateIdle ∧
    ((StreamServer.mk "tcp" ":9001" none () StateRunning).Serve
        (Listener.mk [] "x" none) StateRunning =
      (StreamServer.mk "tcp" ":9001" none () StateRunning,
        some GoError.errAlreadyRunning, []) ∧
     (StreamServer.mk "tcp" ":9001" none () StateRunning).ListenAndServe
        (Except.ok (Listener.mk [] "x" none)) StateRunning =
      (StreamServer.mk "tcp" ":9001" none () StateRunning,
        some GoError.errAlreadyRunning, []) ∧
     (StreamServer.mk "tcp" ":9001" none () StateRunning).ListenAndServeTLS
        none (Except.ok (Listener.mk [] "x" none)) StateRunning =
      (StreamServer.mk "tcp" ":9001" none () StateRunning,
        some GoError.errAlreadyRunning, [])) :=
  ⟨by decide,
   start_rejected_when_not_idle (StreamServer.mk "tcp" ":9001" none () StateRunning)
     (Listener.mk [] "x" none) (Except.ok (Listener.mk [] "x" none)) none
     StateRunning (by decide)⟩

/-- C5: `Close` called while the state is not `StateRunning` returns
`ErrNotRunning`, performs no state write and does not close the listener:
the full result is the unchanged server, the error, and an empty
state-write trace. -/
theorem close_rejected_when_not_running {H : Type} (s : StreamServer H)
    (h : s.state ≠ StateRunning) :
    s.Close = (s, some GoError.errNotRunning, []) := by
  simp [StreamServer.Close, h]

/-- C5 witness: an idle server rejects `Close`. -/
theorem close_rejected_when_not_running_witness :
    (StreamServer.mk "tcp" ":9001" none () StateIdle).state ≠ StateRunning ∧
    (StreamServer.mk "tcp" ":9001" none () StateIdle).Close =
      (StreamServer.mk "tcp" ":9001" none () StateIdle,
        some GoError.errNotRunning, []) :=
  ⟨by decide,
   close_rejected_when_not_running
     (StreamServer.mk "tcp" ":9001" none () StateIdle) (by decide)⟩

/-- C6: counterexample. The readiness check and the store of
`StateRunning` are separate atomic actions, not a compare-and-set: under
the interleaving A-check, B-check, A-store, B-store, both start requests
observe `StateIdle` and both reach the accept loop (program counter 2),
so two accept loop instances are active on the same server at once. -/
theorem two_interleaved_starts_both_enter_loop :
    (runStarters (TwoStarters.mk StateIdle 0 0)
        [true, false, true, false]).pcA = 2 ∧
    (runStarters (TwoStarters.mk StateIdle 0 0)
        [true, false, true, false]).pcB = 2 := by
  decide

/-- C6 (amended): exclusivity holds only against completed transitions:
once one start request has stored `StateRunning` (its thread is in the
accept loop), any start request performing its readiness check is
rejected with `ErrAlreadyRunning` (program counter 3) and changes
nothing. -/
theorem start_rejected_after_completed_start (c : TwoStarters)
    (h1 : c.state = StateRunning) (h2 : c.pcB = 0) :
    (stepStarter c false).pcB = 3 ∧
    (stepStarter c false).state = StateRunning ∧
    (stepStarter c false).pcA = c.pcA := by
  simp [stepStarter, startStep, h1, h2, StateRunning, StateIdle]

/-- C6 amended witness: thread A completed its start (program counter 2,
state `StateRunning`); thread B's check is rejected. -/
theorem start_rejected_after_completed_start_witness :
    (TwoStarters.mk StateRunning 2 0).state = StateRunning ∧
    (TwoStarters.mk StateRunning 2 0).pcB = 0 ∧
    ((stepStarter (TwoStarters.mk StateRunning 2 0) false).pcB = 3 ∧
     (stepStarter (TwoStarters.mk StateRunning 2 0) false).state = StateRunning ∧
     (stepStarter (TwoStarters.mk StateRunning 2 0) false).pcA =
       (TwoStarters.mk StateRunning 2 0).pcA) :=
  ⟨rfl, rfl,
   start_rejected_after_completed_start (TwoStarters.mk StateRunning 2 0)
     rfl rfl⟩

/-- C7: the constructor stores the given network, address and handler
unchanged, leaves the listener at its nil zero value and sets the state
to `StateIdle`; it is a total pure function, hence it never fails and
has no effect beyond the returned value. -/
theorem newStreamServer_spec {H : Type} (network addr : String)
    (handler : H) :
    NewStreamServer network addr handler =
      StreamServer.mk network addr none handler StateIdle := rfl

/-- C8: on every reachable server the state accessor (a total function,
hence it never fails) returns one of the four named enum values, and the
string representation of `StateInvalid`, `StateIdle`, `StateRunning`,
`StateShuttingDown` is exactly "Invalid", "Idle", "Running",
"Shutting down". -/
theorem state_accessor_spec {H : Type} (s : StreamServer H)
    (h : Reachable s) :
    (s.State = StateInvalid ∨ s.State = StateIdle ∨ s.State = StateRunning ∨
      s.State = StateShuttingDown) ∧
    ServerStateString StateInvalid = "Invalid" ∧
    ServerStateString StateIdle = "Idle" ∧
    ServerStateString StateRunning = "Running" ∧
    ServerStateString StateShuttingDown = "Shutting down" := by
  refine ⟨?_, rfl, rfl, rfl, rfl⟩
  rcases reachable_state s h with h1 | h1
  · exact Or.inr (Or.inl h1)
  · exact Or.inr (Or.inr (Or.inl h1))

/-- C8 witness: a freshly constructed server is reachable and its state
is among the four named values. -/
theorem state_accessor_spec_witness :
    Reachable (NewStreamServer "tcp" ":9001" ()) ∧
    (((NewStreamServer "tcp" ":9001" ()).State = StateInvalid ∨
      (NewStreamServer "tcp" ":9001" ()).State = StateIdle ∨
      (NewStreamServer "tcp" ":9001" ()).State = StateRunning ∨
      (NewStreamServer "tcp" ":9001" ()).State = StateShuttingDown) ∧
     ServerStateString StateInvalid = "Invalid" ∧
     ServerStateString StateIdle = "Idle" ∧
     ServerStateString StateRunning = "Running" ∧
     ServerStateString StateShuttingDown = "Shutting down") :=
  ⟨Reachable.new "tcp" ":9001" (),
   state_accessor_spec (NewStreamServer "tcp" ":9001" ())
     (Reachable.new "tcp" ":9001" ())⟩

/-- C9: both certificate-configuration helpers return a configuration
exactly when they return a nil error (never both, never neither), and
any returned configuration carries exactly one certificate (the loaded
key pair), for every behaviour of the external key-pair loader. -/
theorem tlsConfig_exactly_one_certificate
    (load : String → String → Except String TlsCertificate)
    (cert key : String) :
    ((TlsConfigWithCertificate load cert key).1.isSome ↔
      (TlsConfigWithCertificate load cert key).2 = none) ∧
    (TlsConfigWithCertificate load cert key).1.elim True
      (fun cfg => cfg.Certificates.length = 1) ∧
    ((TLSConfigFromCertificateFile load cert key).1.isSome ↔
      (TLSConfigFromCertificateFile load cert key).2 = none) ∧
    (TLSConfigFromCertificateFile load cert key).1.elim True
      (fun cfg => cfg.Certificates.length = 1) := by
  cases h : load cert key <;>
    simp [TlsConfigWithCertificate, TLSConfigFromCertificateFile, h]

/-- C10: `Close` called while the state is `StateRunning` writes
`StateShuttingDown` and then, by its deferred store, `StateIdle` — in
that order, as its state-write trace — and its post-state is already
`StateIdle` when it returns, with no interaction with (hence no waiting
on) the accept loop. -/
theorem close_while_running_immediate_idle {H : Type} (s : StreamServer H)
    (h : s.state = StateRunning) :
    (s.Close).1.state = StateIdle ∧
    (s.Close).2.2 = [StateShuttingDown, StateIdle] := by
  simp [StreamServer.Close, h]

/-- C10 witness: closing a concrete running server leaves it idle with
the write trace ShuttingDown, Idle. -/
theorem close_while_running_immediate_idle_witness :
    (StreamServer.mk "tcp" ":9001" (some (Listener.mk [] "x" none)) ()
      StateRunning).state = StateRunning ∧
    ((StreamServer.mk "tcp" ":9001" (some (Listener.mk [] "x" none)) ()
        StateRunning).Close.1.state = StateIdle ∧
     (StreamServer.mk "tcp" ":9001" (some (Listener.mk [] "x" none)) ()
        StateRunning).Close.2.2 = [StateShuttingDown, StateIdle]) :=
  ⟨rfl,
   close_while_running_immediate_idle
     (StreamServer.mk "tcp" ":9001" (some (Listener.mk [] "x" none)) ()
       StateRunning) rfl⟩

end Netex
